import Mathlib

/-!
# Verification of the credential-brokering OAuth core

A shallow embedding, in Lean 4, of the token-store and OAuth-flow core of the
repository (in-memory token store, KV-backed token store, the token-exchange
handler `handleToken`, and the proactive refresh controller
`ensureFreshToken`), together with proofs and refutations of the spec's
claims about them.

Modelling conventions:
* JavaScript `Map` objects are modelled as association lists in insertion
  order: `Map.get` is `mapGet`, `Map.set` is `mapSet` (replace in place or
  append), `Map.delete` is `mapDelete`.
* `Date.now()` is passed explicitly as a `now : Nat` argument (milliseconds).
  Comparisons that can go negative in JS arithmetic are done in `Int`.
* Randomness (`generateOpaqueToken`, `crypto.randomUUID`) is passed in as
  explicit fresh-string arguments.
* Network calls (`fetch` against the provider's token endpoint) are modelled
  by an oracle argument giving the provider's response; functions that may
  call the provider additionally return the number of provider calls made.
* `sha256B64UrlAsync` (SHA-256 then base64url, computed by platform crypto)
  is treated as an abstract function argument `hash : String → String`;
  the code only ever compares its output for equality.
* JS truthiness is modelled faithfully where the source relies on it
  (`if (maybeNewRsAccess)`, `if (!expiresAt)`, `if (lastRefresh && ...)`,
  `txn.provider?.access_token`, string `||` defaulting).
-/

/-- JS `Map.get`: the value stored at `k`, if any. -/
def mapGet {V : Type} : List (String × V) → String → Option V
  | [], _ => none
  | p :: m, k => if p.1 = k then some p.2 else mapGet m k

/-- JS `Map.set`: replace the entry for `k` in place if present, else append. -/
def mapSet {V : Type} : List (String × V) → String → V → List (String × V)
  | [], k, v => [(k, v)]
  | p :: m, k, v => if p.1 = k then (k, v) :: m else p :: mapSet m k v

/-- JS `Map.delete`: remove the entry for `k`. -/
def mapDelete {V : Type} : List (String × V) → String → List (String × V)
  | [], _ => []
  | p :: m, k => if p.1 = k then mapDelete m k else p :: mapDelete m k

/-- Provider tokens bound to an RS record (`ProviderTokens` in
`storage/interface.ts`): the provider access token, optional provider
refresh token, optional expiry timestamp (ms), and granted scopes. -/
structure ProviderTokens where
  access_token : String
  refresh_token : Option String
  expires_at : Option Nat
  scopes : List String
deriving DecidableEq, Repr

/-- The RS token pair and its provider binding (`RsRecord`). -/
structure RsRecord where
  rs_access_token : String
  rs_refresh_token : String
  provider : ProviderTokens
  created_at : Nat
deriving DecidableEq, Repr

/-- A stored RS record as the in-memory store keeps it:
`RsRecord & \x7b expiresAt: number \x7d` (server-side TTL timestamp). -/
structure RsEntry extends RsRecord where
  expiresAt : Nat
deriving DecidableEq, Repr

/-- One in-flight authorization attempt (`Transaction`). `provider` is
`none` until the provider callback completes. -/
structure Transaction where
  codeChallenge : String
  state : Option String
  createdAt : Nat
  scope : Option String
  sid : Option String
  provider : Option ProviderTokens
deriving DecidableEq, Repr

/-- Wrapper for entries with expiration time (`TimedEntry<T>` in memory.ts). -/
structure TimedEntry (T : Type) where
  value : T
  expiresAt : Nat
  createdAt : Nat
deriving DecidableEq, Repr

/-- Default TTL for transactions (10 minutes). -/
def DEFAULT_TXN_TTL_MS : Nat := 10 * 60 * 1000

/-- Default TTL for authorization codes (10 minutes). -/
def DEFAULT_CODE_TTL_MS : Nat := 10 * 60 * 1000

/-- Default TTL for RS tokens (7 days). -/
def DEFAULT_RS_TOKEN_TTL_MS : Nat := 7 * 24 * 60 * 60 * 1000

/-- Maximum number of RS token records. -/
def MAX_RS_RECORDS : Nat := 10000

/-- Maximum number of transactions. -/
def MAX_TRANSACTIONS : Nat := 1000

/-- The in-memory token store state (`MemoryTokenStore`): the two RS-token
indices, the transaction map and the code map. -/
structure MemoryTokenStore where
  rsAccessMap : List (String × RsEntry)
  rsRefreshMap : List (String × RsEntry)
  transactions : List (String × TimedEntry Transaction)
  codes : List (String × TimedEntry String)
deriving DecidableEq, Repr

/-- Stable ascending sort of map entries by creation time, mirroring the
stable JS `Array.prototype.sort` with comparator `aTime - bTime` used in
`evictOldest`. -/
def sortByCreatedAt {V : Type} (g : V → Nat) (m : List (String × V)) :
    List (String × V) :=
  m.insertionSort (fun a b => g a.2 ≤ g b.2)

/-- `evictOldest(map, maxSize, countToRemove)`: when the map has reached
`maxSize`, delete the `countToRemove` oldest-created entries. `g` plays the
part of the `created_at ?? createdAt ?? 0` accessor for the value type. -/
def evictOldest {V : Type} (g : V → Nat) (m : List (String × V))
    (maxSize countToRemove : Nat) : List (String × V) :=
  if m.length < maxSize then m
  else
    let sorted := sortByCreatedAt g m
    ((sorted.take countToRemove).map Prod.fst).foldl mapDelete m

/-- `MemoryTokenStore.storeRsMapping(rsAccess, provider, rsRefresh?, ttlMs?)`.
`uuid` stands in for the `crypto.randomUUID()` used when no `rsRefresh` is
supplied. Returns the resulting record together with the new store state. -/
def MemoryTokenStore.storeRsMapping (s : MemoryTokenStore) (now : Nat)
    (rsAccess : String) (provider : ProviderTokens) (rsRefresh : Option String)
    (uuid : String) (ttlMs : Nat) : RsEntry × MemoryTokenStore :=
  let expiresAt := now + ttlMs
  let access1 := evictOldest (fun e => e.created_at) s.rsAccessMap MAX_RS_RECORDS 10
  let fallthroughCase : RsEntry × MemoryTokenStore :=
    let record : RsEntry :=
      { rs_access_token := rsAccess
        rs_refresh_token := rsRefresh.getD uuid
        provider := provider
        created_at := now
        expiresAt := expiresAt }
    (record,
      { s with
        rsAccessMap := mapSet access1 record.rs_access_token record
        rsRefreshMap := mapSet s.rsRefreshMap record.rs_refresh_token record })
  match rsRefresh with
  | some r =>
    match mapGet s.rsRefreshMap r with
    | some existing =>
      -- the existing record object is mutated in place; it is reachable from
      -- both indices, so the pure model rewrites both map entries
      let updated : RsEntry :=
        { existing with
          rs_access_token := rsAccess
          provider := provider
          expiresAt := expiresAt }
      (updated,
        { s with
          rsAccessMap :=
            mapSet (mapDelete access1 existing.rs_access_token) rsAccess updated
          rsRefreshMap := mapSet s.rsRefreshMap r updated })
    | none => fallthroughCase
  | none => fallthroughCase

/-- `MemoryTokenStore.getByRsAccess`: look up by RS access token; on TTL
expiry, lazily delete both index entries and return `null`. -/
def MemoryTokenStore.getByRsAccess (s : MemoryTokenStore) (now : Nat)
    (rsAccess : String) : Option RsEntry × MemoryTokenStore :=
  match mapGet s.rsAccessMap rsAccess with
  | none => (none, s)
  | some entry =>
    if now ≥ entry.expiresAt then
      (none,
        { s with
          rsAccessMap := mapDelete s.rsAccessMap rsAccess
          rsRefreshMap := mapDelete s.rsRefreshMap entry.rs_refresh_token })
    else (some entry, s)

/-- `MemoryTokenStore.getByRsRefresh`: look up by RS refresh token; on TTL
expiry, lazily delete both index entries and return `null`. -/
def MemoryTokenStore.getByRsRefresh (s : MemoryTokenStore) (now : Nat)
    (rsRefresh : String) : Option RsEntry × MemoryTokenStore :=
  match mapGet s.rsRefreshMap rsRefresh with
  | none => (none, s)
  | some entry =>
    if now ≥ entry.expiresAt then
      (none,
        { s with
          rsAccessMap := mapDelete s.rsAccessMap entry.rs_access_token
          rsRefreshMap := mapDelete s.rsRefreshMap rsRefresh })
    else (some entry, s)

/-- `MemoryTokenStore.updateByRsRefresh(rsRefresh, provider, maybeNewRsAccess?,
ttlMs?)`: rewrite provider tokens in place; `if (maybeNewRsAccess)` — a JS
truthiness test, so an empty string behaves like absence — rotate the
access-token index. -/
def MemoryTokenStore.updateByRsRefresh (s : MemoryTokenStore) (now : Nat)
    (rsRefresh : String) (provider : ProviderTokens)
    (maybeNewRsAccess : Option String) (ttlMs : Nat) :
    Option RsEntry × MemoryTokenStore :=
  match mapGet s.rsRefreshMap rsRefresh with
  | none => (none, s)
  | some rec =>
    let doRotate : Bool :=
      match maybeNewRsAccess with
      | some na => na != ""
      | none => false
    let accessDel :=
      if doRotate then mapDelete s.rsAccessMap rec.rs_access_token
      else s.rsAccessMap
    let rec1 :=
      if doRotate then
        { rec with
          rs_access_token := maybeNewRsAccess.getD rec.rs_access_token
          created_at := now }
      else rec
    let rec2 := { rec1 with provider := provider, expiresAt := now + ttlMs }
    (some rec2,
      { s with
        rsAccessMap := mapSet accessDel rec2.rs_access_token rec2
        rsRefreshMap := mapSet s.rsRefreshMap rsRefresh rec2 })

/-- `MemoryTokenStore.saveTransaction(txnId, txn, ttlSeconds?)`; a zero
`ttlSeconds` is falsy in JS and falls back to the default TTL. -/
def MemoryTokenStore.saveTransaction (s : MemoryTokenStore) (now : Nat)
    (txnId : String) (txn : Transaction) (ttlSeconds : Option Nat) :
    MemoryTokenStore :=
  let ttlMs :=
    match ttlSeconds with
    | some t => if t = 0 then DEFAULT_TXN_TTL_MS else t * 1000
    | none => DEFAULT_TXN_TTL_MS
  let transactions1 :=
    evictOldest (fun e => e.createdAt) s.transactions MAX_TRANSACTIONS 10
  { s with
    transactions :=
      mapSet transactions1 txnId
        { value := txn, expiresAt := now + ttlMs, createdAt := now } }

/-- `MemoryTokenStore.getTransaction(txnId)` with lazy TTL deletion. -/
def MemoryTokenStore.getTransaction (s : MemoryTokenStore) (now : Nat)
    (txnId : String) : Option Transaction × MemoryTokenStore :=
  match mapGet s.transactions txnId with
  | none => (none, s)
  | some entry =>
    if now ≥ entry.expiresAt then
      (none, { s with transactions := mapDelete s.transactions txnId })
    else (some entry.value, s)

/-- `MemoryTokenStore.deleteTransaction(txnId)`. -/
def MemoryTokenStore.deleteTransaction (s : MemoryTokenStore) (txnId : String) :
    MemoryTokenStore :=
  { s with transactions := mapDelete s.transactions txnId }

/-- `MemoryTokenStore.saveCode(code, txnId, ttlSeconds?)`. -/
def MemoryTokenStore.saveCode (s : MemoryTokenStore) (now : Nat)
    (code : String) (txnId : String) (ttlSeconds : Option Nat) :
    MemoryTokenStore :=
  let ttlMs :=
    match ttlSeconds with
    | some t => if t = 0 then DEFAULT_CODE_TTL_MS else t * 1000
    | none => DEFAULT_CODE_TTL_MS
  { s with
    codes :=
      mapSet s.codes code
        { value := txnId, expiresAt := now + ttlMs, createdAt := now } }

/-- `MemoryTokenStore.getTxnIdByCode(code)` with lazy TTL deletion. -/
def MemoryTokenStore.getTxnIdByCode (s : MemoryTokenStore) (now : Nat)
    (code : String) : Option String × MemoryTokenStore :=
  match mapGet s.codes code with
  | none => (none, s)
  | some entry =>
    if now ≥ entry.expiresAt then
      (none, { s with codes := mapDelete s.codes code })
    else (some entry.value, s)

/-- `MemoryTokenStore.deleteCode(code)`. -/
def MemoryTokenStore.deleteCode (s : MemoryTokenStore) (code : String) :
    MemoryTokenStore :=
  { s with codes := mapDelete s.codes code }

/-! ## Refresh & Throttle Controller (token-refresh module) -/

/-- Token expiry buffer (1 minute). -/
def EXPIRY_BUFFER_MS : Nat := 60000

/-- Refresh throttle cooldown (30 seconds). -/
def REFRESH_COOLDOWN_MS : Nat := 30000

/-- `isTokenExpiredOrExpiring(expiresAt, bufferMs)`. The source's
`if (!expiresAt) return false` is a JS truthiness test: both a missing and a
zero expiry yield `false`. The comparison `Date.now() >= expiresAt - bufferMs`
is JS number arithmetic, modelled in `Int`. -/
def isTokenExpiredOrExpiring (now : Nat) (expiresAt : Option Nat)
    (bufferMs : Nat) : Bool :=
  match expiresAt with
  | none => false
  | some e => if e = 0 then false else decide ((now : Int) ≥ (e : Int) - (bufferMs : Int))

/-- `shouldSkipRefresh(rsToken)` over the `recentlyRefreshed` map. The
source's `if (lastRefresh && ...)` makes a zero timestamp falsy. -/
def shouldSkipRefresh (now : Nat) (recentlyRefreshed : List (String × Nat))
    (rsToken : String) : Bool :=
  match mapGet recentlyRefreshed rsToken with
  | none => false
  | some lastRefresh =>
    if lastRefresh = 0 then false
    else decide ((now : Int) - (lastRefresh : Int) < (REFRESH_COOLDOWN_MS : Int))

/-- `markRefreshed(rsToken)`: record the refresh time; when the map outgrows
1000 entries, drop entries older than the cooldown. -/
def markRefreshed (now : Nat) (recentlyRefreshed : List (String × Nat))
    (rsToken : String) : List (String × Nat) :=
  let m1 := mapSet recentlyRefreshed rsToken now
  if m1.length > 1000 then
    m1.filter (fun p => ¬ ((now : Int) - (p.2 : Int) > (REFRESH_COOLDOWN_MS : Int)))
  else m1

/-- Combined state acted on by `ensureFreshToken`: the token store plus the
module-level `recentlyRefreshed` throttle map. -/
structure RefreshState where
  store : MemoryTokenStore
  recentlyRefreshed : List (String × Nat)
deriving DecidableEq, Repr

/-- Result of `ensureFreshToken`. -/
structure EnsureResult where
  accessToken : String
  wasRefreshed : Bool
deriving DecidableEq, Repr

/-- `ensureFreshToken(rsAccessToken, tokenStore, providerConfig)` from the
token-refresh module (the variant with the refresh throttle and
rotation-on-provider-refresh-change logic). `oracle` models the provider's
refresh endpoint (`refreshProviderToken`): `some tokens` is a successful
`RefreshResult`, `none` any failure. `hasProviderConfig` models whether
`providerConfig` was supplied. The third component of the result counts the number
of calls made to the provider's refresh endpoint. -/
def ensureFreshToken (oracle : String → Option ProviderTokens)
    (hasProviderConfig : Bool) (now : Nat) (rsAccessToken : String)
    (st : RefreshState) : EnsureResult × RefreshState × Nat :=
  let (recordOpt, store1) := st.store.getByRsAccess now rsAccessToken
  let st1 : RefreshState := { st with store := store1 }
  match recordOpt with
  | none => ({ accessToken := "", wasRefreshed := false }, st1, 0)
  | some record =>
    -- `if (!record?.provider?.access_token)`: empty access token is falsy
    if record.provider.access_token = "" then
      ({ accessToken := "", wasRefreshed := false }, st1, 0)
    else if ¬ isTokenExpiredOrExpiring now record.provider.expires_at EXPIRY_BUFFER_MS then
      ({ accessToken := record.provider.access_token, wasRefreshed := false }, st1, 0)
    else if shouldSkipRefresh now st.recentlyRefreshed rsAccessToken then
      ({ accessToken := record.provider.access_token, wasRefreshed := false }, st1, 0)
    else
      -- `if (!record.provider.refresh_token)`: missing or empty is falsy
      match record.provider.refresh_token with
      | none =>
        ({ accessToken := record.provider.access_token, wasRefreshed := false }, st1, 0)
      | some prt =>
        if prt = "" then
          ({ accessToken := record.provider.access_token, wasRefreshed := false }, st1, 0)
        else if ¬ hasProviderConfig then
          ({ accessToken := record.provider.access_token, wasRefreshed := false }, st1, 0)
        else
          match oracle prt with
          | none =>
            ({ accessToken := record.provider.access_token, wasRefreshed := false }, st1, 1)
          | some tokens =>
            let providerRefreshRotated :=
              tokens.refresh_token ≠ record.provider.refresh_token
            let newRsAccess : Option String :=
              if providerRefreshRotated then none else some record.rs_access_token
            let (_, store2) :=
              store1.updateByRsRefresh now record.rs_refresh_token tokens
                newRsAccess DEFAULT_RS_TOKEN_TTL_MS
            let recently2 := markRefreshed now st.recentlyRefreshed rsAccessToken
            ({ accessToken := tokens.access_token, wasRefreshed := true },
              { store := store2, recentlyRefreshed := recently2 }, 1)

/-! ## OAuth Flow Engine: `handleToken` -/

/-- The result type of `handleToken` (`TokenResult`). -/
structure TokenResult where
  access_token : String
  refresh_token : String
  token_type : String
  expires_in : Int
  scope : String
deriving DecidableEq, Repr

/-- The two grants `handleToken` accepts. -/
inductive Grant where
  | refreshTokenGrant (refreshToken : String)
  | authCodeGrant (code : String) (codeVerifier : String)
deriving DecidableEq, Repr

/-- The refresh-grant expiry test in `handleToken`:
`now >= (rec.provider.expires_at ?? 0) - 60_000`, JS number arithmetic. A
missing expiry defaults to `0`, so the token always counts as expiring. -/
def refreshGrantIsExpiringSoon (now : Nat) (expiresAt : Option Nat) : Bool :=
  decide ((now : Int) ≥ ((expiresAt.getD 0 : Nat) : Int) - 60000)

/-- `handleToken`, `grant_type=refresh_token` branch, over the in-memory
store. `oracle` models the provider refresh round-trip of the flow module's
`refreshProviderToken`; any failure there is rethrown as
`provider_refresh_failed`. `freshAccess` stands in for
`generateOpaqueToken(24)`. -/
def handleTokenRefreshGrant (oracle : String → Option ProviderTokens)
    (hasProviderConfig : Bool) (now : Nat) (freshAccess : String)
    (refreshToken : String) (s : MemoryTokenStore) :
    Except String (TokenResult × MemoryTokenStore) :=
  let (recOpt, s1) := s.getByRsRefresh now refreshToken
  match recOpt with
  | none => .error "invalid_grant"
  | some rec =>
    let isExpiringSoon := refreshGrantIsExpiringSoon now rec.provider.expires_at
    let providerE : Except String ProviderTokens :=
      if isExpiringSoon ∧ hasProviderConfig then
        match rec.provider.refresh_token with
        | none => .error "provider_token_expired"
        | some prt =>
          if prt = "" then .error "provider_token_expired"
          else
            match oracle prt with
            | none => .error "provider_refresh_failed"
            | some p => .ok p
      else .ok rec.provider
    match providerE with
    | .error e => .error e
    | .ok provider =>
      let newAccess := freshAccess
      let (updated, s2) :=
        s1.updateByRsRefresh now refreshToken provider (some newAccess)
          DEFAULT_RS_TOKEN_TTL_MS
      let expiresIn : Int :=
        match provider.expires_at with
        | none => 3600
        | some e =>
          if e = 0 then 3600
          else max 1 (Int.fdiv ((e : Int) - (now : Int)) 1000)
      let scopes := match updated with | some u => u.provider.scopes | none => []
      .ok
        ({ access_token := newAccess
           refresh_token := refreshToken
           token_type := "bearer"
           expires_in := expiresIn
           scope := String.intercalate " " scopes }, s2)

/-- `handleToken`, `grant_type=authorization_code` branch, over the in-memory
store. `hash` is the abstract `sha256B64UrlAsync`; `freshAccess` and
`freshRefresh` stand in for the two `generateOpaqueToken(24)` mints. -/
def handleTokenCodeGrant (hash : String → String) (now : Nat)
    (freshAccess freshRefresh : String) (code codeVerifier : String)
    (s : MemoryTokenStore) : Except String (TokenResult × MemoryTokenStore) :=
  let (txnIdOpt, s1) := s.getTxnIdByCode now code
  match txnIdOpt with
  | none => .error "invalid_grant"
  | some txnId =>
    let (txnOpt, s2) := s1.getTransaction now txnId
    match txnOpt with
    | none => .error "invalid_grant"
    | some txn =>
      if txn.codeChallenge ≠ hash codeVerifier then .error "invalid_grant"
      else
        let rsAccess := freshAccess
        let rsRefresh := freshRefresh
        -- `if (txn.provider?.access_token)`: store the mapping only when the
        -- transaction carries provider tokens with a non-empty access token
        let s3 :=
          match txn.provider with
          | some p =>
            if p.access_token ≠ "" then
              (s2.storeRsMapping now rsAccess p (some rsRefresh) ""
                DEFAULT_RS_TOKEN_TTL_MS).2
            else s2
          | none => s2
        let s4 := s3.deleteTransaction txnId
        let s5 := s4.deleteCode code
        let joined :=
          String.intercalate " "
            (match txn.provider with | some p => p.scopes | none => [])
        let scope :=
          if joined ≠ "" then joined
          else match txn.scope with
               | some sc => sc
               | none => ""
        .ok
          ({ access_token := rsAccess
             refresh_token := rsRefresh
             token_type := "bearer"
             expires_in := 3600
             scope := scope }, s5)

/-- `handleToken(input, store, providerConfig?)` over the in-memory store. -/
def handleToken (hash : String → String)
    (oracle : String → Option ProviderTokens) (hasProviderConfig : Bool)
    (now : Nat) (freshAccess freshRefresh : String) (input : Grant)
    (s : MemoryTokenStore) : Except String (TokenResult × MemoryTokenStore) :=
  match input with
  | .refreshTokenGrant rt =>
    handleTokenRefreshGrant oracle hasProviderConfig now freshAccess rt s
  | .authCodeGrant code verifier =>
    handleTokenCodeGrant hash now freshAccess freshRefresh code verifier s

/-! ## Distributed (KV) token store -/

/-- The `KvTokenStore` state: the distributed KV namespace (modelled, for RS
records, as a map from the `rs:access:`/`rs:refresh:`-prefixed keys directly
to records, with the default identity encryptor and JSON round-tripping
elided), the in-process fallback `MemoryTokenStore`, and a fault switch
making every distributed write (`kv.put`) fail. -/
structure KvTokenStore where
  kv : List (String × RsRecord)
  fallback : MemoryTokenStore
  writesFail : Bool
deriving DecidableEq, Repr

/-- `KvTokenStore.storeRsMapping(rsAccess, provider, rsRefresh?)`: build the
record, write the in-process fallback first, then best-effort attempt both
distributed writes; a distributed-write failure is caught and not rethrown.
`uuid` and `uuidFallback` stand in for the two independent
`crypto.randomUUID()` draws (one here, one inside the fallback store). -/
def KvTokenStore.storeRsMapping (st : KvTokenStore) (now : Nat)
    (rsAccess : String) (provider : ProviderTokens) (rsRefresh : Option String)
    (uuid uuidFallback : String) : RsRecord × KvTokenStore :=
  let record : RsRecord :=
    { rs_access_token := rsAccess
      rs_refresh_token := rsRefresh.getD uuid
      provider := provider
      created_at := now }
  let (_, fb1) :=
    st.fallback.storeRsMapping now rsAccess provider rsRefresh uuidFallback
      DEFAULT_RS_TOKEN_TTL_MS
  let kv1 :=
    if st.writesFail then st.kv
    else
      mapSet (mapSet st.kv ("rs:access:" ++ record.rs_access_token) record)
        ("rs:refresh:" ++ record.rs_refresh_token) record
  (record, { st with kv := kv1, fallback := fb1 })

/-- `KvTokenStore.getByRsAccess`: prefer the distributed value when present,
else fall back to the in-process store. -/
def KvTokenStore.getByRsAccess (st : KvTokenStore) (now : Nat)
    (rsAccess : String) : Option RsRecord × KvTokenStore :=
  match mapGet st.kv ("rs:access:" ++ rsAccess) with
  | some rec => (some rec, st)
  | none =>
    let (e, fb1) := st.fallback.getByRsAccess now rsAccess
    (e.map RsEntry.toRsRecord, { st with fallback := fb1 })

/-! ## Concrete instances used by witnesses and counterexamples -/

/-- A provider-token value whose refresh token is `"prt"`. -/
def cProvider : ProviderTokens :=
  { access_token := "pa", refresh_token := some "prt", expires_at := some 100,
    scopes := [] }

/-- Provider tokens as returned by a refresh that rotated the provider
refresh token (`"prt"` to `"prt2"`). -/
def cRotatedTokens : ProviderTokens :=
  { access_token := "pa2", refresh_token := some "prt2",
    expires_at := some 4000000, scopes := [] }

/-- Provider tokens as returned by a refresh that kept the provider refresh
token unchanged. -/
def cKeptTokens : ProviderTokens :=
  { access_token := "pa3", refresh_token := some "prt",
    expires_at := some 4000000, scopes := [] }

/-- A stored RS entry binding RS pair `("a", "r")` to `cProvider`. -/
def cEntry : RsEntry :=
  { rs_access_token := "a", rs_refresh_token := "r", provider := cProvider,
    created_at := 0, expiresAt := 1000000000 }

/-- A one-record in-memory store holding `cEntry` under both indices. -/
def cStore : MemoryTokenStore :=
  { rsAccessMap := [("a", cEntry)], rsRefreshMap := [("r", cEntry)],
    transactions := [], codes := [] }

/-- Refresh-controller state over `cStore` with an empty throttle map. -/
def cRefreshState : RefreshState :=
  { store := cStore, recentlyRefreshed := [] }

/-- Access-map key of the `i`-th record of the capacity-test store. -/
def c9Key (i : Nat) : String := String.mk (List.replicate i 'k')

/-- Refresh-map key of the `i`-th record of the capacity-test store. -/
def c9RefKey (i : Nat) : String := String.mk (List.replicate i 'r')

/-- The `i`-th record of the capacity-test store, created at time `i`. -/
def c9Entry (i : Nat) : RsEntry :=
  { rs_access_token := c9Key i, rs_refresh_token := c9RefKey i,
    provider := { access_token := "pa", refresh_token := none,
                  expires_at := none, scopes := [] },
    created_at := i, expiresAt := 1000000000000000 }

/-- A map region holding records `start .. start+n-1` keyed by `keyf`, in
creation order. -/
def c9MapOf (keyf : Nat → String) : Nat → Nat → List (String × RsEntry)
  | _, 0 => []
  | start, n+1 => (keyf start, c9Entry start) :: c9MapOf keyf (start+1) n

/-- An in-memory store filled to exactly `MAX_RS_RECORDS` records, in
creation order, with pairwise-distinct keys. -/
def c9Store : MemoryTokenStore :=
  { rsAccessMap := c9MapOf c9Key 0 MAX_RS_RECORDS
    rsRefreshMap := c9MapOf c9RefKey 0 MAX_RS_RECORDS
    transactions := []
    codes := [] }

/-- A provider oracle that always succeeds and rotates the provider refresh
token. -/
def cOracleRotated : String → Option ProviderTokens := fun _ => some cRotatedTokens

/-- A stand-in for the abstract SHA-256/base64url digest function. -/
def cHash : String → String := fun _ => "H"

/-- A transaction whose PKCE challenge matches `cHash` but whose provider
callback never completed (`provider` absent). -/
def cTxnNoProvider : Transaction :=
  { codeChallenge := "H", state := none, createdAt := 0, scope := none,
    sid := none, provider := none }

/-- A transaction whose provider callback completed (`provider` present). -/
def cTxnWithProvider : Transaction :=
  { codeChallenge := "H", state := none, createdAt := 0, scope := none,
    sid := none, provider := some cProvider }

/-- A store holding the live code `"c"` for the provider-less transaction
`"t"`. -/
def cFlowStoreNoProvider : MemoryTokenStore :=
  { rsAccessMap := [], rsRefreshMap := []
    transactions := [("t", { value := cTxnNoProvider, expiresAt := 1000, createdAt := 0 })]
    codes := [("c", { value := "t", expiresAt := 1000, createdAt := 0 })] }

/-- A store holding the live code `"c"` for the completed transaction
`"t"`. -/
def cFlowStoreWithProvider : MemoryTokenStore :=
  { rsAccessMap := [], rsRefreshMap := []
    transactions := [("t", { value := cTxnWithProvider, expiresAt := 1000, createdAt := 0 })]
    codes := [("c", { value := "t", expiresAt := 1000, createdAt := 0 })] }

/-! ## Association-list map lemmas -/

theorem mapGet_mapSet_self {V : Type} (m : List (String × V)) (k : String)
    (v : V) : mapGet (mapSet m k v) k = some v := by
  induction m with
  | nil => simp [mapGet, mapSet]
  | cons p m ih =>
    obtain ⟨a, b⟩ := p
    by_cases h : a = k
    · subst h
      simp [mapGet, mapSet]
    · simp [mapGet, mapSet, h, ih]

theorem mapGet_mapSet_ne {V : Type} (m : List (String × V)) {k k' : String}
    (v : V) (h : k' ≠ k) : mapGet (mapSet m k v) k' = mapGet m k' := by
  induction m with
  | nil => simp [mapGet, mapSet, Ne.symm h]
  | cons p m ih =>
    obtain ⟨a, b⟩ := p
    by_cases hp : a = k
    · subst hp
      simp [mapGet, mapSet, Ne.symm h]
    · simp only [mapSet, mapGet, if_neg hp]
      by_cases hp' : a = k'
      · simp [hp']
      · simp [hp', ih]

theorem mapGet_mapDelete_self {V : Type} (m : List (String × V)) (k : String) :
    mapGet (mapDelete m k) k = none := by
  induction m with
  | nil => simp [mapGet, mapDelete]
  | cons p m ih =>
    obtain ⟨a, b⟩ := p
    by_cases h : a = k
    · subst h
      simp [mapDelete, ih]
    · simp [mapGet, mapDelete, h, ih]

theorem mapGet_mapDelete_ne {V : Type} (m : List (String × V)) {k k' : String}
    (h : k' ≠ k) : mapGet (mapDelete m k) k' = mapGet m k' := by
  induction m with
  | nil => simp [mapGet, mapDelete]
  | cons p m ih =>
    obtain ⟨a, b⟩ := p
    by_cases hp : a = k
    · subst hp
      simp [mapGet, mapDelete, Ne.symm h, ih]
    · by_cases hp' : a = k'
      · subst hp'
        simp [mapGet, mapDelete, h]
      · simp [mapGet, mapDelete, hp, hp', ih]

theorem mapGet_eq_none_iff {V : Type} (m : List (String × V)) (k : String) :
    mapGet m k = none ↔ ∀ p ∈ m, p.1 ≠ k := by
  induction m with
  | nil => simp [mapGet]
  | cons p m ih =>
    obtain ⟨a, b⟩ := p
    by_cases h : a = k
    · subst h
      simp [mapGet]
    · simp [mapGet, h, ih]

theorem mapDelete_of_not_mem {V : Type} (m : List (String × V)) (k : String)
    (h : k ∉ m.map Prod.fst) : mapDelete m k = m := by
  induction m with
  | nil => rfl
  | cons p m ih =>
    obtain ⟨a, b⟩ := p
    simp only [List.map_cons, List.mem_cons, not_or] at h
    simp [mapDelete, Ne.symm h.1, ih h.2]

theorem mapGet_filter {V : Type} (m : List (String × V)) (P : String × V → Bool)
    {k : String} {v : V} (h : mapGet m k = some v) (hP : P (k, v) = true) :
    mapGet (m.filter P) k = some v := by
  induction m with
  | nil => simp [mapGet] at h
  | cons p m ih =>
    obtain ⟨a, b⟩ := p
    by_cases hp : a = k
    · subst hp
      simp [mapGet] at h
      subst h
      simp [List.filter_cons, hP, mapGet]
    · simp only [mapGet, if_neg hp] at h
      by_cases hkeep : P (a, b) = true
      · simp [List.filter_cons, hkeep, mapGet, hp, ih h]
      · simp only [Bool.not_eq_true] at hkeep
        simp [List.filter_cons, hkeep, ih h]

/-- Deleting, from a key-distinct map, the keys of its first `n` entries
leaves exactly the rest. -/
theorem foldl_mapDelete_take {V : Type} :
    ∀ (m : List (String × V)) (n : Nat), (m.map Prod.fst).Nodup →
      (((m.take n).map Prod.fst).foldl mapDelete m) = m.drop n := by
  intro m
  induction m with
  | nil => intro n _; simp
  | cons p m ih =>
    intro n hn
    cases n with
    | zero => simp
    | succ n =>
      simp only [List.map_cons, List.nodup_cons] at hn
      have hdel : mapDelete (p :: m) p.1 = m := by
        simp only [mapDelete, if_pos rfl]
        exact mapDelete_of_not_mem m p.1 hn.1
      simp only [List.take_succ_cons, List.map_cons, List.foldl_cons, hdel,
        List.drop_succ_cons]
      exact ih n hn.2

/-! ## Store-level helper lemmas -/

theorem getByRsAccess_found {s : MemoryTokenStore} {now : Nat} {a : String}
    {e : RsEntry} (hm : mapGet s.rsAccessMap a = some e)
    (hexp : now < e.expiresAt) :
    s.getByRsAccess now a = (some e, s) := by
  simp [MemoryTokenStore.getByRsAccess, hm, not_le.mpr hexp]

theorem getByRsRefresh_found {s : MemoryTokenStore} {now : Nat} {r : String}
    {e : RsEntry} (hm : mapGet s.rsRefreshMap r = some e)
    (hexp : now < e.expiresAt) :
    s.getByRsRefresh now r = (some e, s) := by
  simp [MemoryTokenStore.getByRsRefresh, hm, not_le.mpr hexp]

theorem getTxnIdByCode_found {s : MemoryTokenStore} {now : Nat} {c : String}
    {e : TimedEntry String} (hm : mapGet s.codes c = some e)
    (hexp : now < e.expiresAt) :
    s.getTxnIdByCode now c = (some e.value, s) := by
  simp [MemoryTokenStore.getTxnIdByCode, hm, not_le.mpr hexp]

theorem getTransaction_found {s : MemoryTokenStore} {now : Nat} {t : String}
    {e : TimedEntry Transaction} (hm : mapGet s.transactions t = some e)
    (hexp : now < e.expiresAt) :
    s.getTransaction now t = (some e.value, s) := by
  simp [MemoryTokenStore.getTransaction, hm, not_le.mpr hexp]

theorem storeRsMapping_codes (s : MemoryTokenStore) (now : Nat)
    (rsAccess : String) (provider : ProviderTokens) (rsRefresh : Option String)
    (uuid : String) (ttlMs : Nat) :
    (s.storeRsMapping now rsAccess provider rsRefresh uuid ttlMs).2.codes
      = s.codes := by
  unfold MemoryTokenStore.storeRsMapping
  cases rsRefresh with
  | none => rfl
  | some r => cases hm : mapGet s.rsRefreshMap r <;> simp [hm]

theorem storeRsMapping_transactions (s : MemoryTokenStore) (now : Nat)
    (rsAccess : String) (provider : ProviderTokens) (rsRefresh : Option String)
    (uuid : String) (ttlMs : Nat) :
    (s.storeRsMapping now rsAccess provider rsRefresh uuid ttlMs).2.transactions
      = s.transactions := by
  unfold MemoryTokenStore.storeRsMapping
  cases rsRefresh with
  | none => rfl
  | some r => cases hm : mapGet s.rsRefreshMap r <;> simp [hm]

theorem storeRsMapping_fst_access (s : MemoryTokenStore) (now : Nat)
    (rsAccess : String) (provider : ProviderTokens) (rsRefresh : Option String)
    (uuid : String) (ttlMs : Nat) :
    (s.storeRsMapping now rsAccess provider rsRefresh uuid ttlMs).1.rs_access_token
      = rsAccess := by
  unfold MemoryTokenStore.storeRsMapping
  cases rsRefresh with
  | none => rfl
  | some r => cases hm : mapGet s.rsRefreshMap r <;> simp [hm]

theorem storeRsMapping_fst_provider (s : MemoryTokenStore) (now : Nat)
    (rsAccess : String) (provider : ProviderTokens) (rsRefresh : Option String)
    (uuid : String) (ttlMs : Nat) :
    (s.storeRsMapping now rsAccess provider rsRefresh uuid ttlMs).1.provider
      = provider := by
  unfold MemoryTokenStore.storeRsMapping
  cases rsRefresh with
  | none => rfl
  | some r => cases hm : mapGet s.rsRefreshMap r <;> simp [hm]

theorem storeRsMapping_fst_expiresAt (s : MemoryTokenStore) (now : Nat)
    (rsAccess : String) (provider : ProviderTokens) (rsRefresh : Option String)
    (uuid : String) (ttlMs : Nat) :
    (s.storeRsMapping now rsAccess provider rsRefresh uuid ttlMs).1.expiresAt
      = now + ttlMs := by
  unfold MemoryTokenStore.storeRsMapping
  cases rsRefresh with
  | none => rfl
  | some r => cases hm : mapGet s.rsRefreshMap r <;> simp [hm]

theorem storeRsMapping_get_access (s : MemoryTokenStore) (now : Nat)
    (rsAccess : String) (provider : ProviderTokens) (rsRefresh : Option String)
    (uuid : String) (ttlMs : Nat) :
    mapGet (s.storeRsMapping now rsAccess provider rsRefresh uuid ttlMs).2.rsAccessMap
        rsAccess
      = some (s.storeRsMapping now rsAccess provider rsRefresh uuid ttlMs).1 := by
  unfold MemoryTokenStore.storeRsMapping
  cases rsRefresh with
  | none => simp [mapGet_mapSet_self]
  | some r =>
    cases hm : mapGet s.rsRefreshMap r <;> simp [hm, mapGet_mapSet_self]

/-! ## Claims -/

/-- C5, counterexample to the claim as stated: the claim quantifies over
*every* new access token value, but (i) the empty string is falsy in the
source's `if (maybeNewRsAccess)` test, so rotation is skipped and the "new"
token does not resolve; (ii) passing the record's current access token makes
old and new coincide, so the old token still resolves. -/
theorem claim_C5_counterexample :
    ((cStore.updateByRsRefresh 10 "r" cRotatedTokens (some "")
        DEFAULT_RS_TOKEN_TTL_MS).2.getByRsAccess 10 "").1 = none
    ∧ ((cStore.updateByRsRefresh 10 "r" cRotatedTokens (some "a")
        DEFAULT_RS_TOKEN_TTL_MS).2.getByRsAccess 10 "a").1 ≠ none := by
  decide

/-- C5, amended: for every stored record and every *nonempty* new access
token *distinct from the record's current access token*, after
`updateByRsRefresh(rsRefresh, provider, newRsAccess)` the old access token no
longer resolves, the new one resolves to the updated record, that record's
`rs_refresh_token` still equals `rsRefresh`, and the refresh index resolves
to the same record. -/
theorem claim_C5_rotation_consistency
    (s : MemoryTokenStore) (now : Nat) (r newA : String) (p : ProviderTokens)
    (entry : RsEntry)
    (hm : mapGet s.rsRefreshMap r = some entry)
    (hr : entry.rs_refresh_token = r)
    (hne : newA ≠ "")
    (hdiff : newA ≠ entry.rs_access_token) :
    ((s.updateByRsRefresh now r p (some newA)
        DEFAULT_RS_TOKEN_TTL_MS).2.getByRsAccess now entry.rs_access_token).1 = none
    ∧ ∃ e2 : RsEntry,
        (s.updateByRsRefresh now r p (some newA) DEFAULT_RS_TOKEN_TTL_MS).1 = some e2
        ∧ ((s.updateByRsRefresh now r p (some newA)
            DEFAULT_RS_TOKEN_TTL_MS).2.getByRsAccess now newA).1 = some e2
        ∧ e2.rs_access_token = newA
        ∧ e2.rs_refresh_token = r
        ∧ ((s.updateByRsRefresh now r p (some newA)
            DEFAULT_RS_TOKEN_TTL_MS).2.getByRsRefresh now r).1 = some e2 := by
  have httl : now < now + DEFAULT_RS_TOKEN_TTL_MS := by
    have : 0 < DEFAULT_RS_TOKEN_TTL_MS := by decide
    omega
  simp only [MemoryTokenStore.updateByRsRefresh, hm, bne_iff_ne, ne_eq, hne,
    not_false_eq_true, if_true, Option.getD_some]
  refine ⟨?_, ?_⟩
  · simp only [MemoryTokenStore.getByRsAccess,
      mapGet_mapSet_ne _ _ (fun h => hdiff h.symm), mapGet_mapDelete_self]
  · refine ⟨_, rfl, ?_, rfl, hr, ?_⟩
    · simp only [MemoryTokenStore.getByRsAccess, mapGet_mapSet_self,
        ge_iff_le, not_le.mpr httl, if_false]
    · simp only [MemoryTokenStore.getByRsRefresh, mapGet_mapSet_self,
        ge_iff_le, not_le.mpr httl, if_false]

/-- Witness for the amended C5 theorem at a concrete one-record store. -/
theorem claim_C5_witness :
    ((cStore.updateByRsRefresh 10 "r" cRotatedTokens (some "b")
        DEFAULT_RS_TOKEN_TTL_MS).2.getByRsAccess 10 cEntry.rs_access_token).1 = none :=
  (claim_C5_rotation_consistency cStore 10 "r" "b" cRotatedTokens cEntry
    (by decide) (by decide) (by decide) (by decide)).1

/-- C6: with every distributed write failing, `KvTokenStore.storeRsMapping`
still returns a valid record (correct access token and provider tokens)
without raising, leaves the distributed KV untouched, and a subsequent
`getByRsAccess` for the returned access token in the same process resolves
the record through the in-process fallback, which was written before the
distributed attempt. -/
theorem claim_C6_kv_degradation
    (st : KvTokenStore) (now : Nat) (rsAccess : String) (p : ProviderTokens)
    (rsRefresh : Option String) (u1 u2 : String)
    (hfail : st.writesFail = true)
    (hkv : mapGet st.kv ("rs:access:" ++ rsAccess) = none) :
    (st.storeRsMapping now rsAccess p rsRefresh u1 u2).1.rs_access_token = rsAccess
    ∧ (st.storeRsMapping now rsAccess p rsRefresh u1 u2).1.provider = p
    ∧ (st.storeRsMapping now rsAccess p rsRefresh u1 u2).2.kv = st.kv
    ∧ ∃ r' : RsRecord,
        ((st.storeRsMapping now rsAccess p rsRefresh u1 u2).2.getByRsAccess
            now rsAccess).1 = some r'
        ∧ r'.rs_access_token = rsAccess
        ∧ r'.provider = p := by
  have httl : now < now + DEFAULT_RS_TOKEN_TTL_MS := by
    have : 0 < DEFAULT_RS_TOKEN_TTL_MS := by decide
    omega
  have hmemget :
      (st.fallback.storeRsMapping now rsAccess p rsRefresh u2
        DEFAULT_RS_TOKEN_TTL_MS).2.getByRsAccess now rsAccess
      = (some (st.fallback.storeRsMapping now rsAccess p rsRefresh u2
          DEFAULT_RS_TOKEN_TTL_MS).1,
         (st.fallback.storeRsMapping now rsAccess p rsRefresh u2
          DEFAULT_RS_TOKEN_TTL_MS).2) := by
    refine getByRsAccess_found (storeRsMapping_get_access _ _ _ _ _ _ _) ?_
    rw [storeRsMapping_fst_expiresAt]
    exact httl
  refine ⟨?_, ?_, ?_, ?_⟩
  · simp [KvTokenStore.storeRsMapping]
  · simp [KvTokenStore.storeRsMapping]
  · simp [KvTokenStore.storeRsMapping, hfail]
  · refine ⟨(st.fallback.storeRsMapping now rsAccess p rsRefresh u2
        DEFAULT_RS_TOKEN_TTL_MS).1.toRsRecord, ?_, ?_, ?_⟩
    · simp [KvTokenStore.storeRsMapping, KvTokenStore.getByRsAccess, hfail,
        hkv, hmemget]
    · have := storeRsMapping_fst_access st.fallback now rsAccess p rsRefresh u2
        DEFAULT_RS_TOKEN_TTL_MS
      simpa [RsEntry.toRsRecord] using this
    · have := storeRsMapping_fst_provider st.fallback now rsAccess p rsRefresh u2
        DEFAULT_RS_TOKEN_TTL_MS
      simpa [RsEntry.toRsRecord] using this

/-- Witness for C6 at an empty store with failing distributed writes. -/
theorem claim_C6_witness :
    (((⟨[], ⟨[], [], [], []⟩, true⟩ : KvTokenStore).storeRsMapping 5 "a"
        cProvider (some "r") "u1" "u2").1.rs_access_token = "a") :=
  (claim_C6_kv_degradation ⟨[], ⟨[], [], [], []⟩, true⟩ 5 "a" cProvider
    (some "r") "u1" "u2" rfl rfl).1

/-- C7: once a record's server-side TTL timestamp has elapsed, `getByRsAccess`
and `getByRsRefresh` each return `none` and lazily delete both the
access-token and refresh-token index entries, so the subsequent lookup by the
sibling index is also absent. -/
theorem claim_C7_ttl_expiry
    (s : MemoryTokenStore) (now now2 : Nat) (a : String) (e : RsEntry)
    (ha : mapGet s.rsAccessMap a = some e)
    (hat : e.rs_access_token = a)
    (hr : mapGet s.rsRefreshMap e.rs_refresh_token = some e)
    (hexp : now ≥ e.expiresAt) :
    ((s.getByRsAccess now a).1 = none
      ∧ mapGet (s.getByRsAccess now a).2.rsAccessMap a = none
      ∧ mapGet (s.getByRsAccess now a).2.rsRefreshMap e.rs_refresh_token = none
      ∧ ((s.getByRsAccess now a).2.getByRsRefresh now2 e.rs_refresh_token).1 = none)
    ∧ ((s.getByRsRefresh now e.rs_refresh_token).1 = none
      ∧ mapGet (s.getByRsRefresh now e.rs_refresh_token).2.rsAccessMap a = none
      ∧ mapGet (s.getByRsRefresh now e.rs_refresh_token).2.rsRefreshMap
          e.rs_refresh_token = none
      ∧ ((s.getByRsRefresh now e.rs_refresh_token).2.getByRsAccess now2 a).1
          = none) := by
  constructor
  · simp only [MemoryTokenStore.getByRsAccess, MemoryTokenStore.getByRsRefresh,
      ha, ge_iff_le, hexp, if_true, mapGet_mapDelete_self]
    simp
  · simp only [MemoryTokenStore.getByRsAccess, MemoryTokenStore.getByRsRefresh,
      hr, ge_iff_le, hexp, if_true, hat, mapGet_mapDelete_self]
    simp

/-- Witness for C7 with an expired one-record store. -/
theorem claim_C7_witness :
    (cStore.getByRsAccess 1000000000 "a").1 = none :=
  (claim_C7_ttl_expiry cStore 1000000000 0 "a" cEntry (by decide) (by decide)
    (by decide) (by decide)).1.1

/-- C10: `isTokenExpiredOrExpiring` returns `false` for a missing expiry
(for any buffer), so `ensureFreshToken` returns the stored provider access
token unchanged with `wasRefreshed = false` and zero provider calls — while
the `refresh_token` grant's expiry test in `handleToken`
(`refreshGrantIsExpiringSoon`) defaults a missing expiry to `0` and therefore
always counts such a token as expiring. -/
theorem claim_C10_missing_expiry_divergence :
    (∀ now bufferMs : Nat, isTokenExpiredOrExpiring now none bufferMs = false)
    ∧ (∀ (st : RefreshState) (oracle : String → Option ProviderTokens)
        (cfg : Bool) (now : Nat) (a : String) (e : RsEntry),
        mapGet st.store.rsAccessMap a = some e →
        now < e.expiresAt →
        e.provider.access_token ≠ "" →
        e.provider.expires_at = none →
        ensureFreshToken oracle cfg now a st
          = ({ accessToken := e.provider.access_token, wasRefreshed := false },
             st, 0))
    ∧ (∀ now : Nat, refreshGrantIsExpiringSoon now none = true) := by
  refine ⟨fun now bufferMs => rfl, ?_, ?_⟩
  · intro st oracle cfg now a e hm hexp hacc hnone
    simp [ensureFreshToken, getByRsAccess_found hm hexp, hacc, hnone,
      isTokenExpiredOrExpiring]
  · intro now
    simp only [refreshGrantIsExpiringSoon, Option.getD_none, decide_eq_true_eq]
    omega

/-- Witness for C10 at a one-record store whose provider tokens carry no
expiry. -/
theorem claim_C10_witness :
    ensureFreshToken (fun _ => none) true 5 (c9Key 1)
        ⟨⟨[(c9Key 1, c9Entry 1)], [(c9RefKey 1, c9Entry 1)], [], []⟩, []⟩
      = ({ accessToken := (c9Entry 1).provider.access_token,
           wasRefreshed := false },
         ⟨⟨[(c9Key 1, c9Entry 1)], [(c9RefKey 1, c9Entry 1)], [], []⟩, []⟩, 0) :=
  claim_C10_missing_expiry_divergence.2.1
    ⟨⟨[(c9Key 1, c9Entry 1)], [(c9RefKey 1, c9Entry 1)], [], []⟩, []⟩
    (fun _ => none) true 5 (c9Key 1) (c9Entry 1) (by decide) (by decide)
    (by decide) rfl

/-- C1: the claimed rotation never happens. At a concrete record whose
provider refresh token the provider rotates (`"prt"` to `"prt2"`), the
proactive refresh succeeds (`wasRefreshed = true`) yet the access-token index
still holds exactly the old RS access token `"a"`: `ensureFreshToken` passes
`undefined` as the new access token precisely when the provider refresh token
changed (and the old token when unchanged), the reverse of its own comment,
and it never mints a new RS access token at all. -/
theorem claim_C1_no_rotation_on_provider_refresh_change :
    cRotatedTokens.refresh_token ≠ cProvider.refresh_token
    ∧ (ensureFreshToken cOracleRotated true 50 "a" cRefreshState).1.wasRefreshed
        = true
    ∧ (ensureFreshToken cOracleRotated true 50 "a"
        cRefreshState).2.1.store.rsAccessMap.map Prod.fst = ["a"] := by
  decide

/-- C4, counterexample: a token exchange against a live code and transaction
with a matching verifier but *no* attached provider tokens still completes
and returns a minted RS token pair to the caller (it only skips the RS
mapping). -/
theorem claim_C4_counterexample :
    handleToken cHash (fun _ => none) false 10 "A" "R"
        (Grant.authCodeGrant "c" "v") cFlowStoreNoProvider
      = .ok ({ access_token := "A", refresh_token := "R",
               token_type := "bearer", expires_in := 3600, scope := "" },
             ⟨[], [], [], []⟩) := by
  rfl

/-- C4, amended: for a transaction holding a PKCE challenge but no provider
tokens, the exchange still returns a minted RS token pair in the response,
but no RS mapping is created: the returned access and refresh tokens resolve
to nothing in the store. -/
theorem claim_C4_unmapped_pair
    (hash : String → String) (oracle : String → Option ProviderTokens)
    (cfg : Bool) (now now2 : Nat) (fA fR code verifier : String)
    (s : MemoryTokenStore) (ce : TimedEntry String)
    (te : TimedEntry Transaction)
    (hc : mapGet s.codes code = some ce) (hcexp : now < ce.expiresAt)
    (ht : mapGet s.transactions ce.value = some te)
    (htexp : now < te.expiresAt)
    (hprov : te.value.provider = none)
    (hhash : hash verifier = te.value.codeChallenge)
    (hfA : mapGet s.rsAccessMap fA = none)
    (hfR : mapGet s.rsRefreshMap fR = none) :
    ∃ res s',
      handleToken hash oracle cfg now fA fR (.authCodeGrant code verifier) s
        = .ok (res, s')
      ∧ res.access_token = fA ∧ res.refresh_token = fR
      ∧ (s'.getByRsAccess now2 fA).1 = none
      ∧ (s'.getByRsRefresh now2 fR).1 = none := by
  have hrun : handleToken hash oracle cfg now fA fR
      (.authCodeGrant code verifier) s
      = .ok ({ access_token := fA, refresh_token := fR,
               token_type := "bearer", expires_in := 3600,
               scope := match te.value.scope with
                        | some sc => sc
                        | none => "" },
             { s with
               transactions := mapDelete s.transactions ce.value
               codes := mapDelete s.codes code }) := by
    simp only [handleToken, handleTokenCodeGrant,
      getTxnIdByCode_found hc hcexp, getTransaction_found ht htexp, hhash,
      ne_eq, not_true_eq_false, if_false, hprov,
      MemoryTokenStore.deleteTransaction, MemoryTokenStore.deleteCode]
    simp [String.intercalate]
  refine ⟨_, _, hrun, rfl, rfl, ?_, ?_⟩
  · simp only [MemoryTokenStore.getByRsAccess, hfA]
  · simp only [MemoryTokenStore.getByRsRefresh, hfR]

/-- Witness for the amended C4 theorem at a concrete provider-less flow
store. -/
theorem claim_C4_witness :
    ∃ res s',
      handleToken cHash (fun _ => none) false 10 "A" "R"
          (.authCodeGrant "c" "v") cFlowStoreNoProvider = .ok (res, s')
      ∧ res.access_token = "A" ∧ res.refresh_token = "R"
      ∧ (s'.getByRsAccess 10 "A").1 = none
      ∧ (s'.getByRsRefresh 10 "R").1 = none :=
  claim_C4_unmapped_pair cHash (fun _ => none) false 10 10 "A" "R" "c" "v"
    cFlowStoreNoProvider ⟨"t", 1000, 0⟩ ⟨cTxnNoProvider, 1000, 0⟩
    (by decide) (by decide) (by decide) (by decide)
    (by decide) (by decide) (by decide) (by decide)

/-- On any successful `authorization_code` exchange the redeemed code is
gone from the code index (`deleteCode` runs unconditionally before `handleToken`
returns). -/
theorem handleTokenCodeGrant_ok_code_deleted
    {hash : String → String} {now : Nat} {fA fR code verifier : String}
    {s s' : MemoryTokenStore} {res : TokenResult}
    (h : handleTokenCodeGrant hash now fA fR code verifier s = .ok (res, s')) :
    mapGet s'.codes code = none := by
  rcases hg1 : s.getTxnIdByCode now code with ⟨txnIdOpt, s1⟩
  simp only [handleTokenCodeGrant, hg1] at h
  cases txnIdOpt with
  | none => simp at h
  | some txnId =>
    rcases hg2 : s1.getTransaction now txnId with ⟨txnOpt, s2⟩
    simp only [hg2] at h
    cases txnOpt with
    | none => simp at h
    | some txn =>
      by_cases hh : txn.codeChallenge ≠ hash verifier
      · simp only [if_pos hh] at h
        simp at h
      · simp only [if_neg hh, Except.ok.injEq, Prod.mk.injEq] at h
        rw [← h.2]
        simp only [MemoryTokenStore.deleteCode, mapGet_mapDelete_self]

/-- On any successful `authorization_code` exchange, the transaction the
redeemed code pointed to is gone from the transaction map. -/
theorem handleTokenCodeGrant_ok_txn_deleted
    {hash : String → String} {now : Nat} {fA fR code verifier : String}
    {s s' : MemoryTokenStore} {res : TokenResult} {txnId : String}
    (h : handleTokenCodeGrant hash now fA fR code verifier s = .ok (res, s'))
    (ht : (s.getTxnIdByCode now code).1 = some txnId) :
    mapGet s'.transactions txnId = none := by
  rcases hg1 : s.getTxnIdByCode now code with ⟨txnIdOpt, s1⟩
  rw [hg1] at ht
  simp only at ht
  subst ht
  simp only [handleTokenCodeGrant, hg1] at h
  rcases hg2 : s1.getTransaction now txnId with ⟨txnOpt, s2⟩
  simp only [hg2] at h
  cases txnOpt with
  | none => simp at h
  | some txn =>
    by_cases hh : txn.codeChallenge ≠ hash verifier
    · simp only [if_pos hh] at h
      simp at h
    · simp only [if_neg hh, Except.ok.injEq, Prod.mk.injEq] at h
      rw [← h.2]
      simp only [MemoryTokenStore.deleteCode, MemoryTokenStore.deleteTransaction,
        mapGet_mapDelete_self]

/-- C2: a successful `authorization_code` exchange deletes the redeemed code
and its transaction, so a second exchange presenting the same code (with any
verifier, fresh tokens and time) fails with `invalid_grant`. -/
theorem claim_C2_single_use_code
    (hash hash2 : String → String)
    (oracle oracle2 : String → Option ProviderTokens) (cfg cfg2 : Bool)
    (now now2 : Nat) (fA fR fA2 fR2 code verifier verifier2 : String)
    (s s' : MemoryTokenStore) (res : TokenResult)
    (h : handleToken hash oracle cfg now fA fR (.authCodeGrant code verifier) s
      = .ok (res, s')) :
    mapGet s'.codes code = none
    ∧ (∀ txnId, (s.getTxnIdByCode now code).1 = some txnId →
        mapGet s'.transactions txnId = none)
    ∧ handleToken hash2 oracle2 cfg2 now2 fA2 fR2
        (.authCodeGrant code verifier2) s' = .error "invalid_grant" := by
  simp only [handleToken] at h
  have hnone := handleTokenCodeGrant_ok_code_deleted h
  refine ⟨hnone, fun txnId ht => handleTokenCodeGrant_ok_txn_deleted h ht, ?_⟩
  simp only [handleToken, handleTokenCodeGrant, MemoryTokenStore.getTxnIdByCode,
    hnone]

/-- Witness for C2: a concrete successful exchange followed by a replay of
the same code. -/
theorem claim_C2_witness :
    handleToken cHash (fun _ => none) false 11 "A2" "R2"
        (.authCodeGrant "c" "v2")
        (⟨[], [], [], []⟩ : MemoryTokenStore) = .error "invalid_grant" :=
  (claim_C2_single_use_code cHash cHash (fun _ => none) (fun _ => none)
    false false 10 11 "A" "R" "A2" "R2" "c" "v" "v2" cFlowStoreNoProvider
    ⟨[], [], [], []⟩
    { access_token := "A", refresh_token := "R", token_type := "bearer",
      expires_in := 3600, scope := "" }
    (by rfl)).2.2

/-- C3: for a code resolving to a live transaction, the exchange succeeds if
and only if the digest of the submitted verifier equals the transaction's
stored `code_challenge`; any other verifier fails with `invalid_grant`. -/
theorem claim_C3_pkce_integrity
    (hash : String → String) (oracle : String → Option ProviderTokens)
    (cfg : Bool) (now : Nat) (fA fR code verifier : String)
    (s : MemoryTokenStore) (ce : TimedEntry String)
    (te : TimedEntry Transaction)
    (hc : mapGet s.codes code = some ce) (hcexp : now < ce.expiresAt)
    (ht : mapGet s.transactions ce.value = some te)
    (htexp : now < te.expiresAt) :
    ((∃ out, handleToken hash oracle cfg now fA fR
        (.authCodeGrant code verifier) s = .ok out)
      ↔ hash verifier = te.value.codeChallenge)
    ∧ (hash verifier ≠ te.value.codeChallenge →
        handleToken hash oracle cfg now fA fR
          (.authCodeGrant code verifier) s = .error "invalid_grant") := by
  have hred :
      handleToken hash oracle cfg now fA fR (.authCodeGrant code verifier) s
        = if te.value.codeChallenge ≠ hash verifier then .error "invalid_grant"
          else handleTokenCodeGrant hash now fA fR code verifier s := by
    by_cases hh : te.value.codeChallenge ≠ hash verifier
    · simp only [handleToken, handleTokenCodeGrant,
        getTxnIdByCode_found hc hcexp, getTransaction_found ht htexp,
        if_pos hh]
    · rw [if_neg hh]
      rfl
  constructor
  · constructor
    · rintro ⟨out, hout⟩
      rw [hred] at hout
      by_cases hh : te.value.codeChallenge ≠ hash verifier
      · rw [if_pos hh] at hout
        simp at hout
      · simp only [ne_eq, not_not] at hh
        exact hh.symm
    · intro hh
      rw [hred, if_neg (by simp [hh])]
      simp only [handleTokenCodeGrant, getTxnIdByCode_found hc hcexp,
        getTransaction_found ht htexp, hh, ne_eq, not_true_eq_false, if_false]
      exact ⟨_, rfl⟩
  · intro hh
    rw [hred, if_pos (fun hcontra => hh hcontra.symm)]

/-- Witness for C3 at a concrete live code and transaction. -/
theorem claim_C3_witness :
    ((∃ out, handleToken cHash (fun _ => none) false 10 "A" "R"
        (.authCodeGrant "c" "v") cFlowStoreWithProvider = .ok out)
      ↔ cHash "v" = cTxnWithProvider.codeChallenge) :=
  (claim_C3_pkce_integrity cHash (fun _ => none) false 10 "A" "R" "c" "v"
    cFlowStoreWithProvider ⟨"t", 1000, 0⟩ ⟨cTxnWithProvider, 1000, 0⟩
    (by decide) (by decide) (by decide) (by decide)).1

/-- The throttle timestamp written by `markRefreshed` survives its own
bounded cleanup. -/
theorem markRefreshed_get_self (now : Nat) (m : List (String × Nat))
    (a : String) : mapGet (markRefreshed now m a) a = some now := by
  unfold markRefreshed
  by_cases hlen : (mapSet m a now).length > 1000
  · rw [if_pos hlen]
    refine mapGet_filter _ _ (mapGet_mapSet_self m a now) ?_
    simp
  · rw [if_neg hlen]
    exact mapGet_mapSet_self m a now

/-- When the throttle is active for a token, `ensureFreshToken` makes no call
to the provider's refresh endpoint. -/
theorem ensureFreshToken_throttled (oracle : String → Option ProviderTokens)
    (cfg : Bool) (now : Nat) (a : String) (st : RefreshState)
    (hskip : shouldSkipRefresh now st.recentlyRefreshed a = true) :
    (ensureFreshToken oracle cfg now a st).2.2 = 0 := by
  rcases hg : st.store.getByRsAccess now a with ⟨recordOpt, store1⟩
  simp only [ensureFreshToken, hg]
  cases recordOpt with
  | none => rfl
  | some record =>
    by_cases h1 : record.provider.access_token = ""
    · simp [h1]
    · by_cases h2 : isTokenExpiredOrExpiring now record.provider.expires_at
          EXPIRY_BUFFER_MS
      · simp [h1, h2, hskip]
      · simp [h1, h2]

/-- Reduction of `ensureFreshToken` on the refresh path when the provider
refresh call fails: nothing is written and the throttle map is untouched. -/
theorem ensureFreshToken_fail_reduce
    (oracle : String → Option ProviderTokens) (now : Nat) (a prt : String)
    (st : RefreshState) (e : RsEntry)
    (hm : mapGet st.store.rsAccessMap a = some e)
    (hexp : now < e.expiresAt)
    (hacc : e.provider.access_token ≠ "")
    (hnear : isTokenExpiredOrExpiring now e.provider.expires_at
      EXPIRY_BUFFER_MS = true)
    (hskip : shouldSkipRefresh now st.recentlyRefreshed a = false)
    (hprt : e.provider.refresh_token = some prt)
    (hprtne : prt ≠ "")
    (hO : oracle prt = none) :
    ensureFreshToken oracle true now a st
      = ({ accessToken := e.provider.access_token, wasRefreshed := false },
         st, 1) := by
  simp [ensureFreshToken, getByRsAccess_found hm hexp, hacc, hnear,
    hskip, hprt, hprtne, hO]

/-- Reduction of `ensureFreshToken` on the refresh path when the provider
refresh call succeeds: one provider call, a successful result, and the
cooldown marked. -/
theorem ensureFreshToken_success_reduce
    (oracle : String → Option ProviderTokens) (now : Nat) (a prt : String)
    (st : RefreshState) (e : RsEntry) (tok : ProviderTokens)
    (hm : mapGet st.store.rsAccessMap a = some e)
    (hexp : now < e.expiresAt)
    (hacc : e.provider.access_token ≠ "")
    (hnear : isTokenExpiredOrExpiring now e.provider.expires_at
      EXPIRY_BUFFER_MS = true)
    (hskip : shouldSkipRefresh now st.recentlyRefreshed a = false)
    (hprt : e.provider.refresh_token = some prt)
    (hprtne : prt ≠ "")
    (hO : oracle prt = some tok) :
    (ensureFreshToken oracle true now a st).2.2 = 1
    ∧ (ensureFreshToken oracle true now a st).1.wasRefreshed = true
    ∧ (ensureFreshToken oracle true now a st).2.1.recentlyRefreshed
        = markRefreshed now st.recentlyRefreshed a := by
  simp [ensureFreshToken, getByRsAccess_found hm hexp, hacc, hnear,
    hskip, hprt, hprtne, hO]

/-- C8: the refresh cooldown is marked only on success. After a successful
proactive refresh, a second `ensureFreshToken` call for the same RS access
token within the 30-second cooldown window makes no provider call (exactly
one provider call for the back-to-back pair); after a failed refresh the
cooldown is not marked and the state is unchanged, so the very next call
attempts the provider again. -/
theorem claim_C8_cooldown_only_on_success
    (oracleS oracleF : String → Option ProviderTokens)
    (st : RefreshState) (now1 now2 : Nat) (a prt : String) (e : RsEntry)
    (tok : ProviderTokens)
    (hm : mapGet st.store.rsAccessMap a = some e)
    (hexp1 : now1 < e.expiresAt)
    (hacc : e.provider.access_token ≠ "")
    (hnear1 : isTokenExpiredOrExpiring now1 e.provider.expires_at
      EXPIRY_BUFFER_MS = true)
    (hskip1 : shouldSkipRefresh now1 st.recentlyRefreshed a = false)
    (hprt : e.provider.refresh_token = some prt)
    (hprtne : prt ≠ "")
    (hS : oracleS prt = some tok)
    (hF : oracleF prt = none)
    (hnz : now1 ≠ 0)
    (hwin : (now2 : Int) - (now1 : Int) < (REFRESH_COOLDOWN_MS : Int)) :
    ((ensureFreshToken oracleS true now1 a st).2.2 = 1
      ∧ (ensureFreshToken oracleS true now1 a st).1.wasRefreshed = true
      ∧ (ensureFreshToken oracleS true now2 a
          (ensureFreshToken oracleS true now1 a st).2.1).2.2 = 0)
    ∧ (ensureFreshToken oracleF true now1 a st
        = ({ accessToken := e.provider.access_token, wasRefreshed := false },
           st, 1)
      ∧ ∀ now3, now3 < e.expiresAt →
          isTokenExpiredOrExpiring now3 e.provider.expires_at
            EXPIRY_BUFFER_MS = true →
          shouldSkipRefresh now3 st.recentlyRefreshed a = false →
          (ensureFreshToken oracleF true now3 a
            (ensureFreshToken oracleF true now1 a st).2.1).2.2 = 1) := by
  have hsucc := ensureFreshToken_success_reduce oracleS now1 a prt st e tok
    hm hexp1 hacc hnear1 hskip1 hprt hprtne hS
  have hfail := ensureFreshToken_fail_reduce oracleF now1 a prt st e
    hm hexp1 hacc hnear1 hskip1 hprt hprtne hF
  refine ⟨⟨hsucc.1, hsucc.2.1, ?_⟩, hfail, ?_⟩
  · apply ensureFreshToken_throttled
    rw [hsucc.2.2]
    simp only [shouldSkipRefresh, markRefreshed_get_self, hnz, if_neg hnz,
      hwin, decide_eq_true_eq]
    simp [hwin]
  · intro now3 hexp3 hnear3 hskip3
    have hstate : (ensureFreshToken oracleF true now1 a st).2.1 = st := by
      rw [hfail]
    rw [hstate]
    have := ensureFreshToken_fail_reduce oracleF now3 a prt st e
      hm hexp3 hacc hnear3 hskip3 hprt hprtne hF
    rw [this]

/-- Witness for C8 at the concrete one-record near-expiry store. -/
theorem claim_C8_witness :
    (ensureFreshToken cOracleRotated true 50 "a" cRefreshState).2.2 = 1 :=
  (claim_C8_cooldown_only_on_success cOracleRotated (fun _ => none)
    cRefreshState 50 60 "a" "prt" cEntry cRotatedTokens
    (by decide) (by decide) (by decide) (by decide) (by decide) (by decide)
    (by decide) (by decide) (by decide) (by decide) (by decide)).1.1

/-- At capacity, on a key-distinct map already in creation order,
`evictOldest` removes exactly the first `count` entries. -/
theorem evictOldest_at_capacity {V : Type} (g : V → Nat)
    (m : List (String × V)) (maxSize count : Nat)
    (hge : ¬ m.length < maxSize)
    (hnodup : (m.map Prod.fst).Nodup)
    (hsorted : m.Pairwise (fun p q => g p.2 < g q.2)) :
    evictOldest g m maxSize count = m.drop count := by
  unfold evictOldest
  rw [if_neg hge]
  have hsort : sortByCreatedAt g m = m := by
    unfold sortByCreatedAt
    exact List.Sorted.insertionSort_eq (hsorted.imp (fun h => le_of_lt h))
  rw [hsort]
  exact foldl_mapDelete_take m count hnodup

/-- C9: when the access-token map holds exactly `MAX_RS_RECORDS` records (in
creation order, with distinct keys), `storeRsMapping` evicts the 10
oldest-created records from the access-token index only: the access map
becomes the remaining records plus the new one, the refresh map only gains
the new entry, and every evicted (non-expired) record still resolves via
`getByRsRefresh` while `getByRsAccess` returns `none` for it. -/
theorem claim_C9_eviction_from_access_index_only
    (s : MemoryTokenStore) (now : Nat) (rsAccess rf uuid : String)
    (provider : ProviderTokens)
    (hlen : s.rsAccessMap.length = MAX_RS_RECORDS)
    (hnodup : (s.rsAccessMap.map Prod.fst).Nodup)
    (hsorted : s.rsAccessMap.Pairwise
      (fun p q => p.2.created_at < q.2.created_at))
    (hfreshA : mapGet s.rsAccessMap rsAccess = none)
    (hfreshR : mapGet s.rsRefreshMap rf = none) :
    (s.storeRsMapping now rsAccess provider (some rf) uuid
        DEFAULT_RS_TOKEN_TTL_MS).2.rsAccessMap
      = mapSet (s.rsAccessMap.drop 10) rsAccess
          (s.storeRsMapping now rsAccess provider (some rf) uuid
            DEFAULT_RS_TOKEN_TTL_MS).1
    ∧ (s.storeRsMapping now rsAccess provider (some rf) uuid
        DEFAULT_RS_TOKEN_TTL_MS).2.rsRefreshMap
      = mapSet s.rsRefreshMap rf
          (s.storeRsMapping now rsAccess provider (some rf) uuid
            DEFAULT_RS_TOKEN_TTL_MS).1
    ∧ ∀ p ∈ s.rsAccessMap.take 10,
        (((s.storeRsMapping now rsAccess provider (some rf) uuid
            DEFAULT_RS_TOKEN_TTL_MS).2.getByRsAccess now p.1).1 = none)
        ∧ (mapGet s.rsRefreshMap p.2.rs_refresh_token = some p.2 →
            now < p.2.expiresAt →
            ((s.storeRsMapping now rsAccess provider (some rf) uuid
                DEFAULT_RS_TOKEN_TTL_MS).2.getByRsRefresh now
              p.2.rs_refresh_token).1 = some p.2) := by
  have hev : evictOldest (fun e => e.created_at) s.rsAccessMap MAX_RS_RECORDS 10
      = s.rsAccessMap.drop 10 :=
    evictOldest_at_capacity _ _ _ _ (by rw [hlen]; exact lt_irrefl _) hnodup
      hsorted
  have hne_keys : ∀ p ∈ s.rsAccessMap, p.1 ≠ rsAccess :=
    (mapGet_eq_none_iff _ _).mp hfreshA
  have hdisj : ∀ a ∈ (s.rsAccessMap.take 10).map Prod.fst,
      a ∉ (s.rsAccessMap.drop 10).map Prod.fst := by
    have hsplit := hnodup
    rw [← List.take_append_drop 10 s.rsAccessMap, List.map_append] at hsplit
    exact fun a ha => (List.nodup_append.mp hsplit).2.2 ha
  refine ⟨?_, ?_, ?_⟩
  · simp only [MemoryTokenStore.storeRsMapping, hfreshR, hev, Option.getD_some]
  · simp only [MemoryTokenStore.storeRsMapping, hfreshR, hev, Option.getD_some]
  · intro p hp
    have hpAcc : p.1 ≠ rsAccess := hne_keys p (List.take_subset 10 _ hp)
    have hpDrop : mapGet (s.rsAccessMap.drop 10) p.1 = none := by
      rw [mapGet_eq_none_iff]
      intro q hq hq1
      exact hdisj p.1 (List.mem_map_of_mem Prod.fst hp)
        (hq1 ▸ List.mem_map_of_mem Prod.fst hq)
    constructor
    · simp only [MemoryTokenStore.storeRsMapping, hfreshR, hev,
        Option.getD_some, MemoryTokenStore.getByRsAccess,
        mapGet_mapSet_ne _ _ hpAcc, hpDrop]
    · intro hsib hnexp
      have hkey : p.2.rs_refresh_token ≠ rf := by
        intro h
        rw [h, hfreshR] at hsib
        exact Option.noConfusion hsib
      have hget : mapGet (mapSet s.rsRefreshMap rf
          (s.storeRsMapping now rsAccess provider (some rf) uuid
            DEFAULT_RS_TOKEN_TTL_MS).1) p.2.rs_refresh_token = some p.2 := by
        rw [mapGet_mapSet_ne _ _ hkey]
        exact hsib
      simp only [MemoryTokenStore.storeRsMapping, hfreshR, hev,
        Option.getD_some] at hget ⊢
      simp only [MemoryTokenStore.getByRsRefresh, hget, ge_iff_le,
        not_le.mpr hnexp, if_false]

theorem c9Key_injective : Function.Injective c9Key := by
  intro i j h
  have hdata : List.replicate i 'k' = List.replicate j 'k' := by
    have := congrArg String.data h
    simpa [c9Key] using this
  have := congrArg List.length hdata
  simpa using this

theorem c9RefKey_injective : Function.Injective c9RefKey := by
  intro i j h
  have hdata : List.replicate i 'r' = List.replicate j 'r' := by
    have := congrArg String.data h
    simpa [c9RefKey] using this
  have := congrArg List.length hdata
  simpa using this

theorem c9MapOf_length (keyf : Nat → String) :
    ∀ (n start : Nat), (c9MapOf keyf start n).length = n := by
  intro n
  induction n with
  | zero => intro start; rfl
  | succ n ih => intro start; simp [c9MapOf, ih]

theorem c9MapOf_mem (keyf : Nat → String) :
    ∀ (n start : Nat) (p : String × RsEntry), p ∈ c9MapOf keyf start n →
      ∃ i, start ≤ i ∧ i < start + n ∧ p = (keyf i, c9Entry i) := by
  intro n
  induction n with
  | zero => intro start p hp; simp [c9MapOf] at hp
  | succ n ih =>
    intro start p hp
    simp only [c9MapOf, List.mem_cons] at hp
    rcases hp with hp | hp
    · exact ⟨start, le_refl _, by omega, hp⟩
    · obtain ⟨i, h1, h2, h3⟩ := ih (start+1) p hp
      exact ⟨i, by omega, by omega, h3⟩

theorem c9MapOf_nodup (keyf : Nat → String)
    (hinj : Function.Injective keyf) :
    ∀ (n start : Nat), ((c9MapOf keyf start n).map Prod.fst).Nodup := by
  intro n
  induction n with
  | zero => intro start; simp [c9MapOf]
  | succ n ih =>
    intro start
    simp only [c9MapOf, List.map_cons, List.nodup_cons]
    refine ⟨?_, ih (start+1)⟩
    intro hmem
    obtain ⟨p, hp, hp1⟩ := List.mem_map.mp hmem
    obtain ⟨i, h1, _, h3⟩ := c9MapOf_mem keyf n (start+1) p hp
    rw [h3] at hp1
    have := hinj hp1
    omega

theorem c9MapOf_pairwise (keyf : Nat → String) :
    ∀ (n start : Nat), (c9MapOf keyf start n).Pairwise
      (fun p q => p.2.created_at < q.2.created_at) := by
  intro n
  induction n with
  | zero => intro start; simp [c9MapOf]
  | succ n ih =>
    intro start
    simp only [c9MapOf, List.pairwise_cons]
    refine ⟨?_, ih (start+1)⟩
    intro q hq
    obtain ⟨i, h1, _, h3⟩ := c9MapOf_mem keyf n (start+1) q hq
    rw [h3]
    simp only [c9Entry]
    omega

theorem c9MapOf_fresh (keyf : Nat → String)
    (hinj : Function.Injective keyf) (n : Nat) :
    mapGet (c9MapOf keyf 0 n) (keyf n) = none := by
  rw [mapGet_eq_none_iff]
  intro p hp
  obtain ⟨i, _, h2, h3⟩ := c9MapOf_mem keyf n 0 p hp
  rw [h3]
  intro h
  have := hinj h
  omega

/-- Witness for C9 at a store filled to exactly `MAX_RS_RECORDS` records. -/
theorem claim_C9_witness :
    (c9Store.storeRsMapping 0 (c9Key MAX_RS_RECORDS) cProvider
        (some (c9RefKey MAX_RS_RECORDS)) "" DEFAULT_RS_TOKEN_TTL_MS).2.rsAccessMap
      = mapSet (c9Store.rsAccessMap.drop 10) (c9Key MAX_RS_RECORDS)
          (c9Store.storeRsMapping 0 (c9Key MAX_RS_RECORDS) cProvider
            (some (c9RefKey MAX_RS_RECORDS)) "" DEFAULT_RS_TOKEN_TTL_MS).1 :=
  (claim_C9_eviction_from_access_index_only c9Store 0 (c9Key MAX_RS_RECORDS)
    (c9RefKey MAX_RS_RECORDS) "" cProvider
    (c9MapOf_length c9Key MAX_RS_RECORDS 0)
    (c9MapOf_nodup c9Key c9Key_injective MAX_RS_RECORDS 0)
    (c9MapOf_pairwise c9Key MAX_RS_RECORDS 0)
    (c9MapOf_fresh c9Key c9Key_injective MAX_RS_RECORDS)
    (c9MapOf_fresh c9RefKey c9RefKey_injective MAX_RS_RECORDS)).1
